import Mathlib

/-!
Shallow embedding of `sanic/asgi.py`: the `Lifespan` startup/shutdown handshake
loop and the `ASGIApp` per-request stream adapter (construction, body reads,
async iteration, `respond`, `send`, and the top-level `__call__`).

Byte strings are modelled as lists of byte values (`List Nat`).  The gateway's
receive channel is modelled as an explicit queue of inbound messages carried in
the adapter state; a `receive()` on an empty queue models blocking and is
represented by an `Option` result of `none`.  Outbound `transport.send` calls
are logged in order in the `sent` field.  Calls into framework collaborators
(`handle_request`, `handle_exception`, `_startup`, `_server_event`) are
parameterised by behaviour records giving each call's outcome as
`Except String Unit` (the `String` is the exception text).
-/

namespace SanicASGI

abbrev Bytes := List Nat

/-- Modelled from the spec: the `Stage` enumeration imported from `sanic.http`
(its definition is not under `src/`); the spec gives its five values
`IDLE`, `REQUEST`, `HANDLER`, `RESPONSE`, `FAILED`. -/
inductive Stage
  | IDLE
  | REQUEST
  | HANDLER
  | RESPONSE
  | FAILED
deriving DecidableEq, Repr

/-- An inbound ASGI body-chunk message, seen through the source's defaulting
accesses `message.get("body", b"")` and `message.get("more_body", False)`. -/
structure ReceiveMsg where
  body : Bytes
  more_body : Bool
deriving DecidableEq, Repr

/-- The slice of a `BaseHTTPResponse` that `ASGIApp.respond`/`ASGIApp.send`
touch: `status`, `processed_headers`, the optional precomputed `body`
(`getattr(response, "body", None)`), and the `stream` back-link, modelled as a
flag saying whether `response.stream` points at the adapter. -/
structure Resp where
  status : Nat
  processed_headers : List (Bytes × Bytes)
  body : Option Bytes
  stream : Bool
deriving DecidableEq, Repr

/-- Outbound ASGI protocol messages emitted through `transport.send`. -/
inductive ASGIMessage
  | responseStart (status : Nat) (headers : List (Bytes × Bytes))
  | responseBody (body : Bytes) (more_body : Bool)
deriving DecidableEq, Repr

/-- The mutable state of one `ASGIApp` instance, together with its transport
channels: `stage`, the pending `response`, the `request_body` flag, the queue
of not-yet-received inbound messages, and the log of sent messages. -/
structure ASGIApp where
  stage : Stage
  response : Option Resp
  request_body : Bool
  receiveQueue : List ReceiveMsg
  sent : List ASGIMessage
deriving DecidableEq, Repr

/-- Embeds `ASGIApp.read`: promote `IDLE` to `REQUEST`, then await one message from
the receive channel (`none` = the channel has nothing queued, i.e. the call
blocks).  When `more_body` is falsy, clear `request_body`; an empty body then
returns the `None` end-of-body sentinel, a non-empty one is returned as-is. -/
def ASGIApp.read (self : ASGIApp) : Option (ASGIApp × Option Bytes) :=
  let self := if self.stage = Stage.IDLE then
      { self with stage := Stage.REQUEST }
    else self
  match self.receiveQueue with
  | [] => none
  | message :: rest =>
    let self := { self with receiveQueue := rest }
    let body := message.body
    if message.more_body = false then
      let self := { self with request_body := false }
      if body = [] then some (self, none) else some (self, some body)
    else
      some (self, some body)

/-- The `if data: yield data` filter of `ASGIApp.__aiter__`: a read result is
yielded in front of the later chunks only when it is truthy (not the `None`
sentinel and not empty bytes). -/
def yieldFilter (data : Option Bytes) (chunks : List Bytes) : List Bytes :=
  match data with
  | some d => if d = [] then chunks else d :: chunks
  | none => chunks

/-- Embeds `ASGIApp.__aiter__`: `while self.request_body: data = await self.read();
if data: yield data`.  Fuel-indexed; the result is `none` when the loop blocks
on an empty channel (or runs out of fuel), otherwise the final state and the
list of yielded chunks. -/
def ASGIApp.aiter : Nat → ASGIApp → Option (ASGIApp × List Bytes)
  | 0, _ => none
  | fuel + 1, self =>
    if self.request_body then
      match self.read with
      | none => none
      | some (self2, data) =>
        match ASGIApp.aiter fuel self2 with
        | none => none
        | some (self3, chunks) => some (self3, yieldFilter data chunks)
    else
      some (self, [])

def responseAlreadyStarted : String := "Response already started"

/-- Result of one `ASGIApp.respond` call: the new adapter state, the previously
pending response as mutated by the call (its `stream` link cleared) when one
was detached, and the raised `RuntimeError` message if any. -/
structure RespondResult where
  app : ASGIApp
  detached : Option Resp
  error : Option String
deriving DecidableEq, Repr

/-- Embeds `ASGIApp.respond`: outside `HANDLER` force `FAILED` and raise
`RuntimeError("Response already started")`; otherwise clear the old pending
response's `stream` link and attach the new response with its `stream` set. -/
def ASGIApp.respond (self : ASGIApp) (response : Resp) : RespondResult :=
  if self.stage ≠ Stage.HANDLER then
    { app := { self with stage := Stage.FAILED },
      detached := none,
      error := some responseAlreadyStarted }
  else
    { app := { self with response := some { response with stream := true } },
      detached := self.response.map fun old => { old with stream := false },
      error := none }

/-- Embeds `ASGIApp.send`: set the stage (`IDLE` when `end_stream` else `RESPONSE`),
then if a response is pending emit `http.response.start` and prepend its truthy
precomputed body to the outgoing chunk, and always emit `http.response.body`
with `more_body = not end_stream`.  `data` is already bytes (the source's
`data.encode()` branch converts `str` payloads to bytes first). -/
def ASGIApp.send (self : ASGIApp) (data : Bytes) (end_stream : Bool) : ASGIApp :=
  let self := { self with
    stage := if end_stream then Stage.IDLE else Stage.RESPONSE }
  match self.response with
  | some response =>
    let self := { self with response := none }
    let start := ASGIMessage.responseStart response.status
      response.processed_headers
    let data :=
      match response.body with
      | some response_body =>
        if response_body = [] then data
        else if data = [] then response_body
        else response_body ++ data
      | none => data
    { self with sent := self.sent ++
        [start, ASGIMessage.responseBody data (!end_stream)] }
  | none =>
    { self with sent := self.sent ++
        [ASGIMessage.responseBody data (!end_stream)] }

/-- Outcomes of the framework collaborator calls made by `ASGIApp.__call__`:
`handle_request` and `handle_exception` (taking the exception text and the
third positional flag, which defaults to `True` and is passed `False` on the
final fallback attempt). -/
structure HandlerBehavior where
  handle_request : Except String Unit
  handle_exception : String → Bool → Except String Unit

/-- Trace of one `ASGIApp.__call__`: the `handle_exception` invocations made
(exception text and flag, in order) and whether an exception escapes. -/
structure CallResult where
  calls : List (String × Bool)
  outcome : Except String Unit
deriving Repr

/-- The try/except chain of `ASGIApp.__call__`: route a handler exception to
`handle_exception`; if that raises, call `handle_exception` once more with the
flag `False`; a failure of that final attempt is not caught. -/
def handleWithRecovery (b : HandlerBehavior) : CallResult :=
  match b.handle_request with
  | .ok _ => { calls := [], outcome := .ok () }
  | .error e =>
    match b.handle_exception e true with
    | .ok _ => { calls := [(e, true)], outcome := .ok () }
    | .error exc =>
      match b.handle_exception exc false with
      | .ok _ => { calls := [(e, true), (exc, false)], outcome := .ok () }
      | .error final =>
        { calls := [(e, true), (exc, false)], outcome := .error final }

/-- Embeds `ASGIApp.__call__`: set stage to `HANDLER`, then run the handler with the
two-attempt exception recovery chain. -/
def ASGIApp.call (self : ASGIApp) (b : HandlerBehavior) :
    ASGIApp × CallResult :=
  ({ self with stage := Stage.HANDLER }, handleWithRecovery b)

def headerKeyMsg : String := "Header names can only contain US-ASCII characters"

def unknownScopeMsg : String := "Received unknown ASGI scope"

def wsVersion : String := "1.1"

def wsMethod : String := "GET"

/-- The `scope["type"]` discriminant as the source branches on it: `"http"`,
`"websocket"`, or anything else. -/
inductive ScopeType
  | http
  | websocket
  | unknown
deriving DecidableEq, Repr

/-- The fields of the ASGI connection scope that `ASGIApp.create` reads. -/
structure Scope where
  type : ScopeType
  http_version : String
  method : String
  raw_path : Bytes
  query_string : Bytes
  headers : List (Bytes × Bytes)
deriving DecidableEq, Repr

/-- Exceptions `ASGIApp.create` can raise: `BadRequest` (a client error) or
`ServerError`. -/
inductive CreateError
  | badRequest (message : String)
  | serverError (message : String)
deriving DecidableEq, Repr

/-- Embeds `key.decode("ASCII")`: succeeds exactly when every byte is < 128
(US-ASCII); otherwise `UnicodeDecodeError`. -/
def decodeHeaderKey (key : Bytes) : Option Bytes :=
  if key.all (fun b => b < 128) then some key else none

/-- Embeds `value.decode(errors="surrogateescape")`: the lenient decode never raises
and is lossless (undecodable bytes are preserved as escape surrogates), so it
is modelled as the identity on the underlying bytes. -/
def decodeHeaderValue (value : Bytes) : Bytes := value

/-- Decode the scope's header byte-pairs as the `Header(...)` comprehension
does: strict ASCII keys, lenient values; the first key failure aborts. -/
def decodeHeaders : List (Bytes × Bytes) → Option (List (Bytes × Bytes))
  | [] => some []
  | (key, value) :: rest =>
    match decodeHeaderKey key, decodeHeaders rest with
    | some k, some tl => some ((k, decodeHeaderValue value) :: tl)
    | _, _ => none

/-- Embeds `url_bytes.split(b"?", 1)[0]`: the prefix of the raw path up to (not
including) its first `?` byte (63), the whole path when none occurs. -/
def splitFirstQ : Bytes → Bytes
  | [] => []
  | b :: rest => if b = 63 then [] else b :: splitFirstQ rest

/-- The scope-kind branch of `ASGIApp.create`: `http` takes the scope's
declared version and method, `websocket` synthesizes HTTP/1.1 GET and builds a
WebSocket connection (the `Bool` records that), anything else raises
`ServerError("Received unknown ASGI scope")`. -/
def versionMethodWs (scope : Scope) : Except CreateError (String × String × Bool) :=
  match scope.type with
  | ScopeType.http => .ok (scope.http_version, scope.method, false)
  | ScopeType.websocket => .ok (wsVersion, wsMethod, true)
  | ScopeType.unknown => .error (.serverError unknownScopeMsg)

/-- What a successful `ASGIApp.create` produces: the decoded headers, version,
method and reconstructed target handed to the `Request` constructor, the
WebSocket flag, and the initialized adapter state. -/
structure CreatedApp where
  headers : List (Bytes × Bytes)
  version : String
  method : String
  url_bytes : Bytes
  ws : Bool
  app : ASGIApp
deriving DecidableEq, Repr

/-- Embeds `ASGIApp.create`: decode the headers (a key decode failure raises
`BadRequest`), branch on the scope kind, then reconstruct the request target:
when the query string is truthy, truncate the raw path at its first `?` and
append `?` plus the query string.  The adapter starts at `IDLE` with no
pending response and `request_body = True`. -/
def ASGIApp.create (scope : Scope) (receiveQueue : List ReceiveMsg) :
    Except CreateError CreatedApp :=
  match decodeHeaders scope.headers with
  | none => .error (.badRequest headerKeyMsg)
  | some headers =>
    match versionMethodWs scope with
    | .error e => .error e
    | .ok (version, method, ws) =>
      let url_bytes :=
        if scope.query_string ≠ [] then
          splitFirstQ scope.raw_path ++ 63 :: scope.query_string
        else scope.raw_path
      .ok { headers := headers, version := version, method := method,
            url_bytes := url_bytes, ws := ws,
            app := { stage := Stage.IDLE, response := none,
                     request_body := true,
                     receiveQueue := receiveQueue, sent := [] } }

/-- Outcomes of the framework collaborator calls made by the `Lifespan`
component: `_startup()` and the four `_server_event` phases, each returning
`.ok` or the raised exception's text. -/
structure AppBehavior where
  app_startup : Except String Unit
  init_before : Except String Unit
  init_after : Except String Unit
  shutdown_before : Except String Unit
  shutdown_after : Except String Unit

/-- Embeds `Lifespan.startup`: `_startup()`, then the `init.before` listeners, then
the `init.after` listeners, in sequence; the first exception aborts. -/
def Lifespan.startup (b : AppBehavior) : Except String Unit :=
  match b.app_startup with
  | .error e => .error e
  | .ok _ =>
    match b.init_before with
    | .error e => .error e
    | .ok _ => b.init_after

/-- Embeds `Lifespan.shutdown`: the `shutdown.before` listeners then the
`shutdown.after` listeners; the first exception aborts. -/
def Lifespan.shutdown (b : AppBehavior) : Except String Unit :=
  match b.shutdown_before with
  | .error e => .error e
  | .ok _ => b.shutdown_after

/-- Inbound lifespan protocol messages, by their `type` discriminant;
`other` covers every unrecognized type (the if/elif chain ignores those). -/
inductive LifespanReceive
  | startup
  | shutdown
  | other
deriving DecidableEq, Repr

/-- Outbound lifespan protocol messages. -/
inductive LifespanSend
  | startupComplete
  | startupFailed (message : String)
  | shutdownComplete
  | shutdownFailed (message : String)
deriving DecidableEq, Repr

/-- Embeds `Lifespan.__call__`: loop over the receive channel, answering a startup
message with `complete`/`failed` and continuing, and a shutdown message with
`complete`/`failed` and returning.  The result is the list of sent messages
and whether the loop returned (`true`) or is still blocked on `receive()`
after its input (`false`). -/
def Lifespan.loop (b : AppBehavior) :
    List LifespanReceive → List LifespanSend × Bool
  | [] => ([], false)
  | LifespanReceive.startup :: rest =>
    let tail := Lifespan.loop b rest
    match Lifespan.startup b with
    | .error e => (LifespanSend.startupFailed e :: tail.1, tail.2)
    | .ok _ => (LifespanSend.startupComplete :: tail.1, tail.2)
  | LifespanReceive.shutdown :: _ =>
    match Lifespan.shutdown b with
    | .error e => ([LifespanSend.shutdownFailed e], true)
    | .ok _ => ([LifespanSend.shutdownComplete], true)
  | LifespanReceive.other :: rest => Lifespan.loop b rest

/-! ## Helper lemmas -/

/-- Reading (`ASGIApp.read`) on an empty receive channel blocks (`none`). -/
lemma read_nil (st : ASGIApp) (h : st.receiveQueue = []) : st.read = none := by
  obtain ⟨stg, resp, rb, q, sn⟩ := st
  cases q with
  | nil => by_cases hi : stg = Stage.IDLE <;> simp [ASGIApp.read, hi]
  | cons a t => exact absurd h (by simp)

/-- Closed-form characterisation of `ASGIApp.read` consuming the head message
of the receive channel, as a state update. -/
lemma read_cons (st : ASGIApp) (m : ReceiveMsg) (rest : List ReceiveMsg)
    (h : st.receiveQueue = m :: rest) :
    st.read =
      if m.more_body = false then
        if m.body = [] then
          some ({ st with
                    stage := if st.stage = Stage.IDLE then Stage.REQUEST
                      else st.stage,
                    receiveQueue := rest, request_body := false }, none)
        else
          some ({ st with
                    stage := if st.stage = Stage.IDLE then Stage.REQUEST
                      else st.stage,
                    receiveQueue := rest, request_body := false }, some m.body)
      else
        some ({ st with
                  stage := if st.stage = Stage.IDLE then Stage.REQUEST
                    else st.stage,
                  receiveQueue := rest }, some m.body) := by
  obtain ⟨stg, resp, rb, q, sn⟩ := st
  have h' : q = m :: rest := h
  subst h'
  by_cases hi : stg = Stage.IDLE <;>
    by_cases hm : m.more_body = false <;>
    by_cases hb : m.body = [] <;>
    simp [ASGIApp.read, hi, hm, hb]

/-- Unfolding of one `__aiter__` iteration in `Option.bind`/`Option.map` form,
which rewrites smoothly under hypotheses about `read`. -/
lemma aiter_succ (n : Nat) (st : ASGIApp) :
    ASGIApp.aiter (n + 1) st =
      if st.request_body then
        st.read.bind fun p =>
          (ASGIApp.aiter n p.1).map fun q => (q.1, yieldFilter p.2 q.2)
      else some (st, []) := by
  rw [ASGIApp.aiter]
  by_cases h : st.request_body
  · simp only [h, if_true]
    cases st.read with
    | none => rfl
    | some p =>
      obtain ⟨a, b⟩ := p
      simp only [Option.some_bind]
      cases ASGIApp.aiter n a with
      | none => rfl
      | some q => rfl
  · simp [h]

/-- Once `request_body` is cleared, `__aiter__` terminates at once, yielding
nothing and leaving the state untouched, whatever fuel remains. -/
lemma aiter_done (st : ASGIApp) (h : st.request_body = false) (n : Nat) :
    ASGIApp.aiter (n + 1) st = some (st, []) := by
  rw [aiter_succ]
  simp [h]

/-- One `__aiter__` step that reads a non-empty chunk yields it in front of
whatever the rest of the iteration produces. -/
lemma aiter_cons_yield (n : Nat) (st st2 : ASGIApp) (d : Bytes)
    (h : st.request_body = true) (hr : st.read = some (st2, some d))
    (hd : d ≠ []) :
    ASGIApp.aiter (n + 1) st =
      (ASGIApp.aiter n st2).map fun p => (p.1, d :: p.2) := by
  rw [aiter_succ]
  simp [h, hr, yieldFilter, hd]

/-- Iteration (`ASGIApp.aiter`) never yields an empty chunk (`if data:` filters them out). -/
lemma aiter_no_empty (fuel : Nat) : ∀ (st st2 : ASGIApp) (chunks : List Bytes),
    ASGIApp.aiter fuel st = some (st2, chunks) → ∀ c ∈ chunks, c ≠ [] := by
  induction fuel with
  | zero => intro st st2 chunks h; rw [ASGIApp.aiter] at h; cases h
  | succ n ih =>
    intro st st2 chunks h
    rw [aiter_succ] at h
    by_cases hrb : st.request_body
    · rw [if_pos hrb] at h
      cases hr : st.read with
      | none => rw [hr] at h; cases h
      | some p =>
        obtain ⟨st1, data⟩ := p
        rw [hr, Option.some_bind] at h
        cases ha : ASGIApp.aiter n st1 with
        | none => rw [ha] at h; cases h
        | some q =>
          obtain ⟨st3, chunks1⟩ := q
          rw [ha, Option.map_some'] at h
          simp only [Option.some.injEq, Prod.mk.injEq] at h
          obtain ⟨hst, hch⟩ := h
          intro c hc
          rw [← hch] at hc
          cases data with
          | none => exact ih st1 st3 chunks1 ha c hc
          | some d =>
            by_cases hd : d = []
            · rw [yieldFilter, if_pos hd] at hc
              exact ih st1 st3 chunks1 ha c hc
            · rw [yieldFilter, if_neg hd] at hc
              rcases List.mem_cons.mp hc with hcd | hc1
              · rw [hcd]; exact hd
              · exact ih st1 st3 chunks1 ha c hc1
    · rw [if_neg hrb] at h
      simp only [Option.some.injEq, Prod.mk.injEq] at h
      obtain ⟨_, hch⟩ := h
      rw [← hch]
      intro c hc
      cases hc

/-- A list of header pairs with a non-ASCII byte in some key fails to decode. -/
lemma decodeHeaders_none (hs : List (Bytes × Bytes))
    (h : ∃ kv ∈ hs, ∃ b ∈ kv.1, 128 ≤ b) : decodeHeaders hs = none := by
  induction hs with
  | nil => obtain ⟨kv, hkv, _⟩ := h; cases hkv
  | cons p t ih =>
    obtain ⟨kv, hkv, b, hb, hge⟩ := h
    rcases List.mem_cons.mp hkv with hh | ht
    · have hk : decodeHeaderKey p.1 = none := by
        rw [decodeHeaderKey, if_neg]
        intro hall
        have := List.all_eq_true.mp hall b (by rw [hh] at hb; exact hb)
        simp at this
        omega
      obtain ⟨k, v⟩ := p
      simp only [decodeHeaders]
      simp only at hk
      rw [hk]
    · have := ih ⟨kv, ht, b, hb, hge⟩
      obtain ⟨k, v⟩ := p
      simp only [decodeHeaders]
      rw [this]
      cases decodeHeaderKey k <;> rfl

/-- A list of header pairs whose keys are all ASCII decodes successfully. -/
lemma decodeHeaders_some (hs : List (Bytes × Bytes))
    (h : ∀ kv ∈ hs, ∀ b ∈ kv.1, b < 128) :
    ∃ l, decodeHeaders hs = some l := by
  induction hs with
  | nil => exact ⟨[], rfl⟩
  | cons p t ih =>
    obtain ⟨l, hl⟩ := ih fun kv hkv => h kv (List.mem_cons_of_mem p hkv)
    obtain ⟨k, v⟩ := p
    have hk : decodeHeaderKey k = some k := by
      rw [decodeHeaderKey, if_pos]
      exact List.all_eq_true.mpr fun b hb => by
        simp
        exact h (k, v) (List.mem_cons_self _ _) b hb
    exact ⟨(k, decodeHeaderValue v) :: l, by
      simp only [decodeHeaders]; rw [hk, hl]⟩

/-! ## Sample states used by witnesses and counterexamples -/

def sampleResp : Resp :=
  { status := 200, processed_headers := [], body := none, stream := false }

def secondResp : Resp :=
  { status := 500, processed_headers := [], body := none, stream := false }

def idleApp : ASGIApp :=
  { stage := Stage.IDLE, response := none, request_body := true,
    receiveQueue := [], sent := [] }

def failedApp : ASGIApp := { idleApp with stage := Stage.FAILED }

def handlerPending : ASGIApp :=
  { stage := Stage.HANDLER, response := some sampleResp,
    request_body := false, receiveQueue := [], sent := [] }

def nopBehavior : HandlerBehavior :=
  { handle_request := .ok (), handle_exception := fun _ _ => .ok () }

/-! ## Claims -/

/-- Claim C1, counterexample to the claim as stated: `FAILED` is not terminal
(`send` on a `FAILED` adapter moves the stage to `IDLE`), and `FAILED` is
reached by `respond` from `IDLE`, a stage other than `HANDLER`. -/
theorem c1_counterexample :
    (failedApp.send [] true).stage = Stage.IDLE ∧
    (idleApp.respond sampleResp).app.stage = Stage.FAILED := by
  exact ⟨rfl, rfl⟩

/-- Claim C1 (amended): the stage transitions each operation actually
performs.  `respond` keeps `HANDLER` and otherwise forces `FAILED` (raising);
`send` sets `IDLE` or `RESPONSE` from any stage, `end_stream` deciding which;
`__call__` sets `HANDLER` from any stage; `read` promotes `IDLE` to `REQUEST`
and otherwise preserves the stage.  In particular `FAILED` is reached exactly
by calling `respond` outside `HANDLER`, and it is terminal under `read` and
`respond` but not under `send` or `__call__`. -/
theorem c1_stage_transitions (st : ASGIApp) (r : Resp) (data : Bytes)
    (es : Bool) (b : HandlerBehavior) :
    (st.respond r).app.stage =
      (if st.stage = Stage.HANDLER then Stage.HANDLER else Stage.FAILED) ∧
    (st.respond r).error =
      (if st.stage = Stage.HANDLER then none
       else some responseAlreadyStarted) ∧
    (st.send data es).stage = (if es then Stage.IDLE else Stage.RESPONSE) ∧
    (st.call b).1.stage = Stage.HANDLER ∧
    (∀ st2 ob, st.read = some (st2, ob) →
      st2.stage = if st.stage = Stage.IDLE then Stage.REQUEST else st.stage) := by
  refine ⟨?_, ?_, ?_, rfl, ?_⟩
  · by_cases h : st.stage = Stage.HANDLER <;> simp [ASGIApp.respond, h]
  · by_cases h : st.stage = Stage.HANDLER <;> simp [ASGIApp.respond, h]
  · cases hre : st.response with
    | none => simp [ASGIApp.send, hre]
    | some resp => simp [ASGIApp.send, hre]
  · intro st2 ob h
    cases hq : st.receiveQueue with
    | nil => rw [read_nil st hq] at h; cases h
    | cons m rest =>
      rw [read_cons st m rest hq] at h
      by_cases hm : m.more_body = false
      · by_cases hb : m.body = []
        · simp only [hm, hb, if_true, if_false, Option.some.injEq,
            Prod.mk.injEq, reduceIte] at h
          obtain ⟨h1, -⟩ := h; rw [← h1]
        · simp only [hm, hb, if_true, if_false, Option.some.injEq,
            Prod.mk.injEq, reduceIte] at h
          obtain ⟨h1, -⟩ := h; rw [← h1]
      · simp [hm] at h
        obtain ⟨h1, -⟩ := h; rw [← h1]

def c1ReadApp : ASGIApp :=
  { idleApp with receiveQueue := [{ body := [97], more_body := true }] }

/-- Claim C1 witness: the amended transition table evaluated at sample
states. -/
theorem c1_stage_transitions_witness :
    (idleApp.respond sampleResp).app.stage = Stage.FAILED ∧
    (idleApp.send [] false).stage = Stage.RESPONSE ∧
    (idleApp.call nopBehavior).1.stage = Stage.HANDLER ∧
    ({ c1ReadApp with stage := Stage.REQUEST, receiveQueue := [] } :
      ASGIApp).stage = Stage.REQUEST := by
  have h := c1_stage_transitions idleApp sampleResp [] false nopBehavior
  have h2 := c1_stage_transitions c1ReadApp sampleResp [] false nopBehavior
  exact ⟨h.1, h.2.2.1, h.2.2.2.1,
    h2.2.2.2.2 { c1ReadApp with stage := Stage.REQUEST, receiveQueue := [] }
      (some [97]) rfl⟩

/-- Claim C2: with a pending response of status 200 and given headers, sending
`b"hello"` (not end of stream) then `b"world"` (end of stream) emits exactly
`http.response.start` then the two `http.response.body` messages with
`more_body` true then false, and leaves the stage at `IDLE`. -/
theorem c2_two_chunk_response (hdrs : List (Bytes × Bytes)) :
    ((({ stage := Stage.HANDLER,
         response := some { status := 200, processed_headers := hdrs,
                            body := none, stream := true },
         request_body := false, receiveQueue := [],
         sent := [] } : ASGIApp).send
        [104, 101, 108, 108, 111] false).send
        [119, 111, 114, 108, 100] true).sent =
      [ASGIMessage.responseStart 200 hdrs,
       ASGIMessage.responseBody [104, 101, 108, 108, 111] true,
       ASGIMessage.responseBody [119, 111, 114, 108, 100] false] ∧
    ((({ stage := Stage.HANDLER,
         response := some { status := 200, processed_headers := hdrs,
                            body := none, stream := true },
         request_body := false, receiveQueue := [],
         sent := [] } : ASGIApp).send
        [104, 101, 108, 108, 111] false).send
        [119, 111, 114, 108, 100] true).stage = Stage.IDLE := by
  exact ⟨rfl, rfl⟩

/-- Claim C3: a second `respond` while the stage is `HANDLER` detaches the
pending response (its stream link cleared) and attaches the new one without
raising; `respond` at any other stage raises `RuntimeError("Response already
started")` and forces the stage to `FAILED`. -/
theorem c3_respond_semantics (st : ASGIApp) (r old : Resp) :
    (st.stage = Stage.HANDLER → st.response = some old →
      (st.respond r).error = none ∧
      (st.respond r).app.response = some { r with stream := true } ∧
      (st.respond r).detached = some { old with stream := false } ∧
      (st.respond r).app.stage = Stage.HANDLER) ∧
    (st.stage ≠ Stage.HANDLER →
      (st.respond r).error = some responseAlreadyStarted ∧
      (st.respond r).app.stage = Stage.FAILED) := by
  constructor
  · intro h1 h2
    simp [ASGIApp.respond, h1, h2]
  · intro h
    simp [ASGIApp.respond, h]

/-- Claim C3 witness: a double `respond` in `HANDLER` detaches the first
response, and a `respond` at `IDLE` raises and fails the stage. -/
theorem c3_respond_semantics_witness :
    ((handlerPending.respond secondResp).error = none ∧
     (handlerPending.respond secondResp).app.response =
       some { secondResp with stream := true } ∧
     (handlerPending.respond secondResp).detached =
       some { sampleResp with stream := false } ∧
     (handlerPending.respond secondResp).app.stage = Stage.HANDLER) ∧
    ((idleApp.respond secondResp).error = some responseAlreadyStarted ∧
     (idleApp.respond secondResp).app.stage = Stage.FAILED) :=
  ⟨(c3_respond_semantics handlerPending secondResp sampleResp).1 rfl rfl,
   (c3_respond_semantics idleApp secondResp sampleResp).2 (by decide)⟩

def c6App : ASGIApp :=
  { stage := Stage.HANDLER, response := none, request_body := true,
    receiveQueue := [{ body := [97, 98, 99], more_body := true },
                     { body := [100, 101, 102], more_body := false }],
    sent := [] }

def c6Mid : ASGIApp :=
  { c6App with
      receiveQueue := [{ body := [100, 101, 102], more_body := false }] }

def c6End : ASGIApp :=
  { stage := Stage.HANDLER, response := none, request_body := false,
    receiveQueue := [], sent := [] }

/-- Claim C6: a body delivered as `[b"abc", more=true]` then
`[b"def", more=false]` iterates to exactly `b"abc"` then `b"def"` and then
stops (whatever fuel remains, the loop is finished: `request_body` is cleared
when the final chunk arrives and its end-of-body signal is deferred, so the
non-empty final chunk is still yielded). -/
theorem c6_body_iteration :
    ASGIApp.aiter 3 c6App = some (c6End, [[97, 98, 99], [100, 101, 102]]) ∧
    ∀ fuel, ASGIApp.aiter (fuel + 3) c6App =
      some (c6End, [[97, 98, 99], [100, 101, 102]]) := by
  constructor
  · rfl
  · intro fuel
    rw [show fuel + 3 = (fuel + 2) + 1 from rfl,
      aiter_cons_yield (fuel + 2) c6App c6Mid [97, 98, 99] rfl rfl
        (by decide),
      show fuel + 2 = (fuel + 1) + 1 from rfl,
      aiter_cons_yield (fuel + 1) c6Mid c6End [100, 101, 102] rfl rfl
        (by decide),
      aiter_done c6End rfl fuel]
    rfl

def httpVer : String := "1.1"

def getMethod : String := "GET"

def badKeyScope : Scope :=
  { type := ScopeType.http, http_version := httpVer, method := getMethod,
    raw_path := [47], query_string := [], headers := [([200], [65])] }

def oddValueScope : Scope :=
  { type := ScopeType.http, http_version := httpVer, method := getMethod,
    raw_path := [47], query_string := [], headers := [([97], [255, 254])] }

/-- Claim C4: a non-ASCII byte in any header key makes `create` fail with the
`BadRequest` client error (no `Request` is produced), while header values
never cause construction to fail: with all keys ASCII and a known scope kind,
`create` succeeds whatever bytes the values hold. -/
theorem c4_header_decoding (scope : Scope) (q : List ReceiveMsg) :
    ((∃ kv ∈ scope.headers, ∃ b ∈ kv.1, 128 ≤ b) →
      ASGIApp.create scope q = .error (.badRequest headerKeyMsg)) ∧
    ((∀ kv ∈ scope.headers, ∀ b ∈ kv.1, b < 128) →
      scope.type ≠ ScopeType.unknown →
      ∃ app, ASGIApp.create scope q = .ok app) := by
  constructor
  · intro hbad
    have hn := decodeHeaders_none scope.headers hbad
    simp [ASGIApp.create, hn]
  · intro hok htype
    obtain ⟨l, hl⟩ := decodeHeaders_some scope.headers hok
    cases ht : scope.type with
    | unknown => exact absurd ht htype
    | http =>
      exact ⟨{ headers := l, version := scope.http_version,
               method := scope.method,
               url_bytes := if scope.query_string ≠ [] then
                   splitFirstQ scope.raw_path ++ 63 :: scope.query_string
                 else scope.raw_path,
               ws := false,
               app := { stage := Stage.IDLE, response := none,
                        request_body := true, receiveQueue := q,
                        sent := [] } },
             by simp [ASGIApp.create, hl, versionMethodWs, ht]⟩
    | websocket =>
      exact ⟨{ headers := l, version := wsVersion, method := wsMethod,
               url_bytes := if scope.query_string ≠ [] then
                   splitFirstQ scope.raw_path ++ 63 :: scope.query_string
                 else scope.raw_path,
               ws := true,
               app := { stage := Stage.IDLE, response := none,
                        request_body := true, receiveQueue := q,
                        sent := [] } },
             by simp [ASGIApp.create, hl, versionMethodWs, ht]⟩

/-- Claim C4 witness: a header key containing byte 200 is rejected with
`BadRequest`; a header value containing bytes 255 and 254 does not prevent
construction. -/
theorem c4_header_decoding_witness :
    ASGIApp.create badKeyScope [] = .error (.badRequest headerKeyMsg) ∧
    ∃ app, ASGIApp.create oddValueScope [] = .ok app :=
  ⟨(c4_header_decoding badKeyScope []).1 (by decide),
   (c4_header_decoding oddValueScope []).2 (by decide) (by decide)⟩

/-- Claim C5: whenever the scope's query string is non-empty, the
reconstructed request target of a successful `create` is the raw path
truncated at its first `?` byte, then `?` (byte 63), then the query string. -/
theorem c5_target_reconstruction (scope : Scope) (q : List ReceiveMsg)
    (app : CreatedApp) (h : ASGIApp.create scope q = .ok app)
    (hq : scope.query_string ≠ []) :
    app.url_bytes = splitFirstQ scope.raw_path ++ 63 :: scope.query_string := by
  cases hd : decodeHeaders scope.headers with
  | none => simp [ASGIApp.create, hd] at h
  | some l =>
    cases hv : versionMethodWs scope with
    | error e => simp [ASGIApp.create, hd, hv] at h
    | ok t =>
      obtain ⟨version, method, ws⟩ := t
      simp only [ASGIApp.create, hd, hv] at h
      injection h with h2
      rw [← h2]
      simp [hq]

def dupPathScope : Scope :=
  { type := ScopeType.http, http_version := httpVer, method := getMethod,
    raw_path := [47, 97, 63, 120, 61, 49, 63, 100, 117, 112],
    query_string := [120, 61, 49], headers := [] }

def plainPathScope : Scope := { dupPathScope with raw_path := [47, 97] }

def reconstructedApp : CreatedApp :=
  { headers := [], version := httpVer, method := getMethod,
    url_bytes := [47, 97, 63, 120, 61, 49], ws := false, app := idleApp }

/-- Claim C5 witness: raw path `b"/a"` with query `b"x=1"` reconstructs to
`b"/a?x=1"`, and raw path `b"/a?x=1?dup"` with query `b"x=1"` also
reconstructs to `b"/a?x=1"`. -/
theorem c5_target_reconstruction_witness :
    (ASGIApp.create dupPathScope [] = .ok reconstructedApp ∧
     reconstructedApp.url_bytes = [47, 97, 63, 120, 61, 49]) ∧
    (ASGIApp.create plainPathScope [] = .ok reconstructedApp ∧
     reconstructedApp.url_bytes = [47, 97] ++ 63 :: [120, 61, 49]) := by
  refine ⟨⟨rfl, ?_⟩, rfl, ?_⟩
  · exact c5_target_reconstruction dupPathScope [] reconstructedApp rfl
      (by decide)
  · exact c5_target_reconstruction plainPathScope [] reconstructedApp rfl
      (by decide)

def c7App : ASGIApp :=
  { stage := Stage.REQUEST, response := none, request_body := false,
    receiveQueue := [{ body := [120, 121], more_body := true }], sent := [] }

def c7Drained : ASGIApp := { c7App with receiveQueue := [] }

/-- Claim C7, counterexample to the claim as stated: on an adapter whose
end-of-body is already signaled (`request_body = false`), `read` still
consumes the next message from the receive channel and returns its (non-empty)
body, and on an empty channel it blocks (`none`) rather than returning an
empty no-op result. -/
theorem c7_counterexample :
    ASGIApp.read c7App = some (c7Drained, some [120, 121]) ∧
    ASGIApp.read c7Drained = none := by
  exact ⟨rfl, rfl⟩

/-- Claim C7 (amended): after end-of-body is signaled, the `__aiter__` loop
performs no further reads (it yields nothing, leaves the state untouched and
never blocks), but a direct `read()` call still pulls one more message from
the receive channel — blocking when none is queued — and returns its body
under the usual rules, with `request_body` remaining cleared. -/
theorem c7_read_after_end (st : ASGIApp) (h : st.request_body = false) :
    (st.receiveQueue = [] → st.read = none) ∧
    (∀ m rest, st.receiveQueue = m :: rest →
      st.read = some ({ st with
          stage := if st.stage = Stage.IDLE then Stage.REQUEST else st.stage,
          receiveQueue := rest, request_body := false },
        if m.more_body = false ∧ m.body = [] then none else some m.body)) ∧
    (∀ n, ASGIApp.aiter (n + 1) st = some (st, [])) := by
  refine ⟨fun hq => read_nil st hq, ?_, fun n => aiter_done st h n⟩
  intro m rest hq
  rw [read_cons st m rest hq]
  by_cases hm : m.more_body = false
  · by_cases hb : m.body = []
    · simp [hm, hb]
    · simp [hm, hb]
  · simp [hm, h]

/-- Claim C7 witness: the amended read-after-end behaviour at a drained
adapter with one stray queued message. -/
theorem c7_read_after_end_witness :
    ASGIApp.read c7Drained = none ∧
    ASGIApp.read c7App = some (c7Drained, some [120, 121]) ∧
    ASGIApp.aiter 1 c7Drained = some (c7Drained, []) := by
  have h := c7_read_after_end c7App rfl
  have h2 := c7_read_after_end c7Drained rfl
  exact ⟨h2.1 rfl,
    h.2.1 { body := [120, 121], more_body := true } [] rfl, h2.2.2 0⟩

def c8Msg : String := "listener exploded"

def failingStartup : AppBehavior :=
  { app_startup := .ok (), init_before := .ok (),
    init_after := .error c8Msg,
    shutdown_before := .ok (), shutdown_after := .ok () }

def quietStartup : AppBehavior :=
  { app_startup := .ok (), init_before := .ok (), init_after := .ok (),
    shutdown_before := .ok (), shutdown_after := .ok () }

/-- Claim C8: a failing startup step (framework `_startup`, an `init.before`
listener, or an `init.after` listener) makes the loop answer a startup
message with exactly one `lifespan.startup.failed` carrying the exception
text, and the loop keeps running, so a later shutdown message is still
processed; a successful startup sends exactly one
`lifespan.startup.complete`. -/
theorem c8_lifespan_startup (b : AppBehavior) (e : String)
    (rest : List LifespanReceive) :
    (Lifespan.startup b = .error e →
      Lifespan.loop b (LifespanReceive.startup :: rest) =
        (LifespanSend.startupFailed e :: (Lifespan.loop b rest).1,
         (Lifespan.loop b rest).2)) ∧
    (Lifespan.startup b = .ok () →
      Lifespan.loop b (LifespanReceive.startup :: rest) =
        (LifespanSend.startupComplete :: (Lifespan.loop b rest).1,
         (Lifespan.loop b rest).2)) ∧
    (b.app_startup = .error e → Lifespan.startup b = .error e) ∧
    (b.app_startup = .ok () → b.init_before = .error e →
      Lifespan.startup b = .error e) ∧
    (b.app_startup = .ok () → b.init_before = .ok () →
      Lifespan.startup b = b.init_after) ∧
    (Lifespan.startup b = .error e → Lifespan.shutdown b = .ok () →
      Lifespan.loop b [LifespanReceive.startup, LifespanReceive.shutdown] =
        ([LifespanSend.startupFailed e, LifespanSend.shutdownComplete],
         true)) := by
  refine ⟨?_, ?_, ?_, ?_, ?_, ?_⟩
  · intro h; simp [Lifespan.loop, h]
  · intro h; simp [Lifespan.loop, h]
  · intro h; simp [Lifespan.startup, h]
  · intro h h2; simp [Lifespan.startup, h, h2]
  · intro h h2; simp [Lifespan.startup, h, h2]
  · intro h h2; simp [Lifespan.loop, h, h2]

/-- Claim C8 witness: an `init.after` failure yields exactly
`[startup.failed "listener exploded", shutdown.complete]` over a
startup-then-shutdown exchange, and an all-quiet startup yields exactly one
`startup.complete` with the loop still live. -/
theorem c8_lifespan_startup_witness :
    Lifespan.startup failingStartup = .error c8Msg ∧
    Lifespan.loop failingStartup
        [LifespanReceive.startup, LifespanReceive.shutdown] =
      ([LifespanSend.startupFailed c8Msg, LifespanSend.shutdownComplete],
       true) ∧
    Lifespan.loop quietStartup [LifespanReceive.startup] =
      ([LifespanSend.startupComplete], false) := by
  have h := c8_lifespan_startup failingStartup c8Msg []
  have h2 := c8_lifespan_startup quietStartup c8Msg []
  exact ⟨h.2.2.2.2.1 rfl rfl, h.2.2.2.2.2 rfl rfl, h2.2.1 rfl⟩

/-- Claim C9: if `handle_request` raises, `handle_exception` is invoked once
(default flag); if that raises too, `handle_exception` is invoked exactly once
more with the fallback flag `False`, and the outcome of `__call__` is exactly
that second recovery attempt's outcome — a failure there propagates
uncaught. -/
theorem c9_exception_recovery (st : ASGIApp) (b : HandlerBehavior)
    (e : String) (h : b.handle_request = .error e) :
    (b.handle_exception e true = .ok () →
      (st.call b).2.calls = [(e, true)] ∧
      (st.call b).2.outcome = .ok ()) ∧
    (∀ exc, b.handle_exception e true = .error exc →
      (st.call b).2.calls = [(e, true), (exc, false)] ∧
      (st.call b).2.outcome = b.handle_exception exc false) := by
  constructor
  · intro h2
    constructor
    · simp [ASGIApp.call, handleWithRecovery, h, h2]
    · simp [ASGIApp.call, handleWithRecovery, h, h2]
  · intro exc h2
    constructor
    · cases h3 : b.handle_exception exc false with
      | ok u => simp [ASGIApp.call, handleWithRecovery, h, h2, h3]
      | error e3 => simp [ASGIApp.call, handleWithRecovery, h, h2, h3]
    · cases h3 : b.handle_exception exc false with
      | ok u => cases u; simp [ASGIApp.call, handleWithRecovery, h, h2, h3]
      | error e3 => simp [ASGIApp.call, handleWithRecovery, h, h2, h3]

def c9Req : String := "handler exploded"

def c9Sec : String := "exception handler exploded"

def doubleFaulting : HandlerBehavior :=
  { handle_request := .error c9Req,
    handle_exception := fun _ flag =>
      if flag then .error c9Sec else .ok () }

/-- Claim C9 witness: a handler failure followed by a failing first recovery
leads to exactly two `handle_exception` calls, the second with the fallback
flag, and the second recovery's success means no exception escapes. -/
theorem c9_exception_recovery_witness :
    (idleApp.call doubleFaulting).2.calls =
      [(c9Req, true), (c9Sec, false)] ∧
    (idleApp.call doubleFaulting).2.outcome = .ok () := by
  have h := (c9_exception_recovery idleApp doubleFaulting c9Req rfl).2
    c9Sec rfl
  exact ⟨h.1, h.2⟩

/-- Claim C10: an inbound chunk with empty body and `more_body = true` is read
as the empty chunk but skipped by `__aiter__` (the iteration over the rest of
the queue is unchanged), and more generally iteration never yields an empty
chunk, so the handler sees only non-empty chunks before end-of-body. -/
theorem c10_empty_chunk_skipped (st : ASGIApp) (m : ReceiveMsg)
    (rest : List ReceiveMsg) (n : Nat)
    (hrb : st.request_body = true) (hq : st.receiveQueue = m :: rest)
    (hb : m.body = []) (hm : m.more_body = true) :
    st.read = some ({ st with
        stage := if st.stage = Stage.IDLE then Stage.REQUEST else st.stage,
        receiveQueue := rest }, some []) ∧
    ASGIApp.aiter (n + 1) st =
      ASGIApp.aiter n ({ st with
        stage := if st.stage = Stage.IDLE then Stage.REQUEST else st.stage,
        receiveQueue := rest }) ∧
    (∀ fuel s s2 chunks, ASGIApp.aiter fuel s = some (s2, chunks) →
      ∀ c ∈ chunks, c ≠ []) := by
  have hread : st.read = some ({ st with
      stage := if st.stage = Stage.IDLE then Stage.REQUEST else st.stage,
      receiveQueue := rest }, some []) := by
    rw [read_cons st m rest hq]
    simp [hm, hb]
  refine ⟨hread, ?_, aiter_no_empty⟩
  rw [aiter_succ, if_pos hrb, hread, Option.some_bind]
  cases ha : ASGIApp.aiter n ({ st with
      stage := if st.stage = Stage.IDLE then Stage.REQUEST else st.stage,
      receiveQueue := rest }) with
  | none => rfl
  | some p => simp [yieldFilter]

def c10App : ASGIApp :=
  { stage := Stage.HANDLER, response := none, request_body := true,
    receiveQueue := [{ body := [], more_body := true },
                     { body := [104], more_body := false }], sent := [] }

def c10Mid : ASGIApp :=
  { c10App with receiveQueue := [{ body := [104], more_body := false }] }

/-- Claim C10 witness: the empty non-final chunk is read as `some []` and the
iteration continues exactly as if it had not been there. -/
theorem c10_empty_chunk_skipped_witness :
    ASGIApp.read c10App = some (c10Mid, some []) ∧
    ASGIApp.aiter 2 c10App = ASGIApp.aiter 1 c10Mid := by
  have h := c10_empty_chunk_skipped c10App { body := [], more_body := true }
    [{ body := [104], more_body := false }] 1 rfl rfl rfl rfl
  exact ⟨h.1, h.2.1⟩

end SanicASGI
